import Mathlib

/-
Verification development for the JSR Hydra trading orchestrator.

Shallow embedding of:
  * backend/app/strategies/strategy_d.py  (StrategyD, the momentum scalper)
  * backend/app/engine/engine.py          (orchestration loop fragments:
      candle-change detection, SL/TP enforcement, risk gating, order
      submission, trade recording, closure reconciliation)

Prices, indicator values and P&L figures are embedded as rationals (ℚ);
candle timestamps as naturals (ℕ).  The indicator library
(app/indicators/*) is an external module whose latest output values are
passed to the embedded strategy logic as explicit inputs; fallible
external calls (data feed, broker history, database) are embedded as
Option / Except values.
-/

namespace Hydra

/-- Order direction, `OrderDirection` in app/config/constants.py
(the engine compares against the string form). -/
inductive Direction
  | BUY
  | SELL
deriving DecidableEq, Repr

/-! ## StrategyD — momentum scalper (strategy_d.py) -/

/-- One OHLC bar, as the four columns extracted by
`StrategyD.generate_signal` (lines 137–140; volume is not read there). -/
structure Candle where
  open_price : ℚ
  high : ℚ
  low : ℚ
  close : ℚ
deriving DecidableEq, Repr

/-- StrategyD configuration (strategy_d.py lines 82–89). -/
structure DConfig where
  bb_period : ℕ
  bb_std : ℚ
  rsi_period : ℕ
  rsi_oversold : ℚ
  rsi_overbought : ℚ
  atr_period : ℕ
deriving DecidableEq, Repr

/-- The constructor defaults: bb_period 20, bb_std 2.0, rsi_period 14,
rsi_oversold 30, rsi_overbought 70, atr_period 14. -/
def defaultDConfig : DConfig :=
  { bb_period := 20, bb_std := 2, rsi_period := 14,
    rsi_oversold := 30, rsi_overbought := 70, atr_period := 14 }

/-- Source line 127: `min_data = max(bb_period, rsi_period) + 5`. -/
def minData (cfg : DConfig) : ℕ := max cfg.bb_period cfg.rsi_period + 5

/-- The latest row of each indicator series computed at lines 143–164.
The indicator library itself is outside the embedded core; a `none`
models a NaN latest value (the warm-up case checked at lines 167–168). -/
structure LatestIndicators where
  upper : Option ℚ
  middle : Option ℚ
  lower : Option ℚ
  rsiv : Option ℚ
  atrv : Option ℚ
deriving DecidableEq, Repr

/-- A trigger condition that fired; stands for the reason strings the
source appends to `buy_signals` / `sell_signals` (lines 209–224). -/
inductive Trigger
  | bbBuy
  | rsiBuy
  | momentumBuy
  | bbSell
  | rsiSell
  | momentumSell
deriving DecidableEq, Repr

/-- Momentum-burst detection (lines 190–206): needs at least 6 bars;
fires when the current body exceeds 1.5× the mean body of the previous
5 bars and the body-to-range ratio exceeds 0.6; the direction is bullish
iff close > open. -/
def momentumFlags (candles : List Candle) (latest : Candle) : Bool × Bool :=
  if 6 ≤ candles.length then
    let current_body := |latest.close - latest.open_price|
    let candle_range := latest.high - latest.low
    let body_ratio := if 0 < candle_range then current_body / candle_range else 0
    let recent_bodies := (candles.dropLast.reverse.take 5).map
      (fun c => |c.close - c.open_price|)
    let avg_body := recent_bodies.sum / 5
    if (3 / 2 : ℚ) * avg_body < current_body ∧ (3 / 5 : ℚ) < body_ratio then
      if latest.open_price < latest.close then (true, false) else (false, true)
    else (false, false)
  else (false, false)

/-- BUY-side triggers in source order (lines 183, 187, 191–204, 212–217):
price below lower band, RSI below oversold, bullish momentum burst. -/
def buyTriggers (cfg : DConfig) (candles : List Candle) (latest : Candle)
    (lowerB rsiv : ℚ) : List Trigger :=
  (if latest.close < lowerB then [Trigger.bbBuy] else []) ++
  (if rsiv < cfg.rsi_oversold then [Trigger.rsiBuy] else []) ++
  (if (momentumFlags candles latest).1 then [Trigger.momentumBuy] else [])

/-- SELL-side triggers in source order (lines 184, 188, 191–206, 219–224):
price above upper band, RSI above overbought, bearish momentum burst. -/
def sellTriggers (cfg : DConfig) (candles : List Candle) (latest : Candle)
    (upperB rsiv : ℚ) : List Trigger :=
  (if upperB < latest.close then [Trigger.bbSell] else []) ++
  (if cfg.rsi_overbought < rsiv then [Trigger.rsiSell] else []) ++
  (if (momentumFlags candles latest).2 then [Trigger.momentumSell] else [])

/-- The signal record built at lines 272–279; `reason` keeps the list of
fired triggers that the source renders as strings. -/
structure StrategySignal where
  direction : Direction
  confidence : ℚ
  sl_price : ℚ
  tp_price : ℚ
  reason : List Trigger
  strategy_code : String
deriving DecidableEq, Repr

/-- Directional tail of `generate_signal` (lines 250–292): ATR-scaled
stops (SL = 1.0×ATR, TP = 1.5×ATR on the proper side), rejection of a
non-positive SL/TP, and confidence `min(|RSI − 50| / 50, 1.0)`. -/
def mkSignal (dir : Direction) (triggers : List Trigger) (latest : Candle)
    (rsiv atrv : ℚ) : Option StrategySignal :=
  let sl_price := if dir = Direction.BUY then latest.close - atrv * 1
    else latest.close + atrv * 1
  let tp_price := if dir = Direction.BUY then latest.close + atrv * (3 / 2)
    else latest.close - atrv * (3 / 2)
  if sl_price ≤ 0 ∨ tp_price ≤ 0 then none
  else some
    { direction := dir
      confidence := min (|rsiv - 50| / 50) 1
      sl_price := sl_price
      tp_price := tp_price
      reason := triggers
      strategy_code := "D" }

/-- Direction resolution (lines 226–248): a BUY only when BUY triggers
exist and no SELL trigger does, symmetrically for SELL, else `None`
(conflict or no trigger at all). -/
def signalCore (cfg : DConfig) (candles : List Candle) (latest : Candle)
    (upperB middleB lowerB rsiv atrv : ℚ) : Option StrategySignal :=
  let buy := buyTriggers cfg candles latest lowerB rsiv
  let sell := sellTriggers cfg candles latest upperB rsiv
  if buy ≠ [] ∧ sell = [] then mkSignal Direction.BUY buy latest rsiv atrv
  else if sell ≠ [] ∧ buy = [] then mkSignal Direction.SELL sell latest rsiv atrv
  else none

/-- The function `StrategyD.generate_signal` (lines 125–292) over the extracted candle
list and the latest indicator values: insufficient data (length below
`min_data`, line 128) gives `None`; any NaN latest indicator value
(lines 167–177) gives `None`; otherwise the trigger/direction core runs.
`middleB` is bound but, as in the source, only its NaN-ness matters. -/
def generate_signal (cfg : DConfig) (candles : List Candle)
    (ind : LatestIndicators) : Option StrategySignal :=
  if candles.length < minData cfg then none
  else
    match candles.getLast? with
    | none => none
    | some latest =>
      match ind.upper, ind.middle, ind.lower, ind.rsiv, ind.atrv with
      | some ub, some mb, some lb, some rv, some av =>
        signalCore cfg candles latest ub mb lb rv av
      | _, _, _, _, _ => none

/-! ## StrategyD public boundary (the catch-all of lines 125 / 294–300) -/

/-- A pandas DataFrame as the strategy sees it: a row count and a set of
named numeric columns.  Column access raises a KeyError when the column
is absent, embedded as `Except`. -/
structure DataFrame where
  nrows : ℕ
  cols : List (String × List ℚ)
deriving DecidableEq, Repr

/-- Column access `candles_df[name]`, fallible. -/
def DataFrame.getCol (df : DataFrame) (name : String) : Except String (List ℚ) :=
  match df.cols.lookup name with
  | some v => Except.ok v
  | none => Except.error ("KeyError: " ++ name)

/-- Zip the four extracted columns back into OHLC bars. -/
def mkCandles (ops his los cls : List ℚ) : List Candle :=
  ((ops.zip his).zip (los.zip cls)).map
    (fun p => { open_price := p.1.1, high := p.1.2, low := p.2.1, close := p.2.2 })

/-- The body of `StrategyD.generate_signal` with its fallible steps made
explicit: the length precondition check (line 128, before any column
access), then extraction of the close/high/low/open columns
(lines 137–140, a missing column raises), then the indicator-library
calls (lines 143–153, external code that may raise — its outcome is the
`indRes` input), then the pure core. -/
def generate_signal_checked (cfg : DConfig) (df : DataFrame)
    (indRes : Except String LatestIndicators) :
    Except String (Option StrategySignal) :=
  if df.nrows < minData cfg then Except.ok none
  else do
    let cls ← df.getCol "close"
    let his ← df.getCol "high"
    let los ← df.getCol "low"
    let ops ← df.getCol "open"
    let ind ← indRes
    Except.ok (generate_signal cfg (mkCandles ops his los cls) ind)

/-- The public boundary of `generate_signal`: the whole body runs under
`try … except Exception: return None` (lines 125, 294–300), so every
internal error is swallowed and surfaces as `None`. -/
def generate_signal_public (cfg : DConfig) (df : DataFrame)
    (indRes : Except String LatestIndicators) : Option StrategySignal :=
  match generate_signal_checked cfg df indRes with
  | Except.error _ => none
  | Except.ok r => r

/-! ## Engine: candle-change detection (engine.py lines 563–583) -/

/-- Outcome of `data_feed.get_candles(symbol, tf, count=200)` for one
(symbol, timeframe) key: an exception, or a fetched series given by its
ordered index timestamps. -/
inductive CandleFetch
  | failure
  | series (times : List ℕ)
deriving DecidableEq, Repr

/-- One candle-change detection step for a (symbol, timeframe) key
(lines 563–583).  Input: the stored cursor (`_last_candle_time.get`) and
the fetch outcome.  Output: the new-candle flag and the cursor value
after the step.  A fetch failure or a series with fewer than 2 candles
yields `false` and leaves the cursor alone; otherwise the flag is true
iff there is no stored cursor or the latest timestamp strictly exceeds
it, and the cursor is set to the latest timestamp (line 578,
unconditionally). -/
def detectNewCandle (prev : Option ℕ) (fetch : CandleFetch) : Bool × Option ℕ :=
  match fetch with
  | CandleFetch.failure => (false, prev)
  | CandleFetch.series times =>
    if 2 ≤ times.length then
      match times.getLast? with
      | some latest =>
        let isNew := match prev with
          | none => true
          | some p => decide (p < latest)
        (isNew, some latest)
      | none => (false, prev)
    else (false, prev)

/-! ## Engine: per-signal pipeline (engine.py lines 604–709) -/

/-- Per-symbol static configuration (`SYMBOL_CONFIGS`, lines 54–75). -/
structure SymbolConfig where
  lot_size : ℚ
  sl_atr_mult : ℚ
  tp_atr_mult : ℚ
deriving DecidableEq, Repr

/-- The signal as the engine consumes it after `strategy.run_cycle`
(fields read at lines 605–607, 667–669, 702–708). -/
structure Signal where
  symbol : String
  direction : Direction
  entry_price : ℚ
  stop_loss : Option ℚ
  take_profit : Option ℚ
deriving DecidableEq, Repr

/-- Result of `RiskManager.pre_trade_check` (fields read at lines 672–705). -/
structure RiskCheckResult where
  approved : Bool
  reason : String
  position_size : ℚ
  risk_score : ℚ
deriving DecidableEq, Repr

/-- Events the modelled pipeline fragment publishes on the bus. -/
inductive Event
  | TRADE_REJECTED (strategy symbol reason : String)
deriving DecidableEq, Repr

/-- One observable step of the per-signal pipeline, in source order. -/
inductive Action
  | discard (summary : String)
  | riskCheck (symbol : String) (direction : Direction) (sl_distance : ℚ)
  | publish (e : Event)
  | openPosition (symbol : String) (direction : Direction)
      (lots sl tp : ℚ) (comment : String)
deriving DecidableEq, Repr

/-- Source check `sl_price is None or sl_price <= 0` (and likewise for TP),
lines 609, 613, 625. -/
def priceInvalid (p : Option ℚ) : Bool :=
  match p with
  | none => true
  | some v => decide (v ≤ 0)

/-- The per-signal tail of `_main_loop` (lines 604–709) as the trace of
collaborator calls it performs, given the signal, the symbol's config,
the cycle's cached H1 ATR (`indicator_values["atr"]`, `none` when
unavailable) and the risk gate's answer.  Steps:
  * SL/TP enforcement: if either price is missing/non-positive, derive
    the missing one from ATR with the symbol's multipliers; without a
    (truthy, positive) ATR the signal is discarded
    (`skipped_no_sl_tp`, lines 609–644) before anything else runs;
  * final validation: non-positive SL or TP discards
    (`invalid_sl_tp`, lines 647–656);
  * the risk gate is consulted (lines 666–670); a rejection publishes
    TRADE_REJECTED with the gate's reason and stops (lines 681–699);
  * otherwise `open_position` is called with the gate's size and the
    enforced SL/TP (lines 702–709).  The submission aftermath
    (lines 711–815) is modelled separately by `recordTrade`.
`enforceSlTp` is the first step (lines 604–644): if either price is
missing or non-positive, the missing one is derived from the cycle ATR
with the symbol's multipliers on the direction's side; `none` means the
ATR was unavailable (absent, zero — falsy — or negative) and the signal
is discarded. -/
def enforceSlTp (cfg : SymbolConfig) (atrOpt : Option ℚ) (sig : Signal) :
    Option (ℚ × ℚ) :=
  let entry := sig.entry_price
  if priceInvalid sig.stop_loss || priceInvalid sig.take_profit then
    match atrOpt with
    | some a =>
      if 0 < a then
        let sl := if priceInvalid sig.stop_loss then
            (if sig.direction = Direction.BUY then entry - a * cfg.sl_atr_mult
             else entry + a * cfg.sl_atr_mult)
          else sig.stop_loss.getD 0
        let tp := if priceInvalid sig.take_profit then
            (if sig.direction = Direction.BUY then entry + a * cfg.tp_atr_mult
             else entry - a * cfg.tp_atr_mult)
          else sig.take_profit.getD 0
        some (sl, tp)
      else none
    | none => none
  else some (sig.stop_loss.getD 0, sig.take_profit.getD 0)

/-- The rest of the per-signal pipeline after `enforceSlTp` (final
validation at lines 647–656, risk gate at 666–699, submission at
702–709), as the trace of collaborator calls. -/
def processSignal (strat_key : String) (cfg : SymbolConfig) (atrOpt : Option ℚ)
    (sig : Signal) (risk : RiskCheckResult) : List Action :=
  let entry := sig.entry_price
  match enforceSlTp cfg atrOpt sig with
  | none => [Action.discard "skipped_no_sl_tp"]
  | some (sl, tp) =>
    if sl ≤ 0 ∨ tp ≤ 0 then [Action.discard "invalid_sl_tp"]
    else
      Action.riskCheck sig.symbol sig.direction |entry - sl| ::
      (if risk.approved then
        [Action.openPosition sig.symbol sig.direction risk.position_size sl tp
          (("JSR_" ++ strat_key).take 31)]
      else
        [Action.publish (Event.TRADE_REJECTED strat_key sig.symbol risk.reason)])

/-! ## Engine: trade recording after submission (engine.py lines 776–815) -/

/-- The value stored in `_open_trades[ticket]` (lines 806–811). -/
structure OpenTradeInfo where
  trade_id : ℕ
  strategy_code : String
  symbol : String
  direction : Direction
deriving DecidableEq, Repr

/-- The in-memory Open Trade Record `_open_trades`:
broker ticket → trade info. -/
abbrev OpenTrades := List (ℕ × OpenTradeInfo)

/-- Outcome of the database block up to and including `session.commit()`
(lines 778–802): the created trade's id, or the raised exception's
message. -/
inductive DbPersist
  | ok (trade_id : ℕ)
  | error (msg : String)
deriving DecidableEq, Repr

/-- Source line 782: `strategy_code = strat_key.split('_', 1)[1] if '_' in strat_key else
strat_key` (line 782). -/
def strategyCodeOf (strat_key : String) : String :=
  match strat_key.splitOn "_" with
  | [] => strat_key
  | [_] => strat_key
  | _ :: rest => String.intercalate "_" rest

/-- The trade-recording block (lines 776–815): the whole block is one
`try`, and the `_open_trades[ticket]` insertion (lines 804–811) sits
inside it *after* `TradeService.create_trade` and the commit — so a
persistence failure jumps to the handler (line 814, a log) and the
insertion never runs; on success the ticket is inserted when it is
truthy (non-zero). -/
def recordTrade (openTrades : OpenTrades) (strat_key symbol : String)
    (dir : Direction) (ticket : ℕ) (db : DbPersist) : OpenTrades :=
  match db with
  | DbPersist.error _ => openTrades
  | DbPersist.ok trade_id =>
    if ticket ≠ 0 then
      (ticket, { trade_id := trade_id, strategy_code := strategyCodeOf strat_key,
                 symbol := symbol, direction := dir }) :: openTrades
    else openTrades

/-! ## Engine: closure reconciliation (engine.py `_check_closed_positions`,
lines 928–1043) -/

/-- Tickets of a map. -/
def ticketsOf (m : OpenTrades) : List ℕ := m.map Prod.fst

/-- Popping `self._open_trades.pop(ticket)`: remove the entry for a ticket. -/
def eraseTicket (m : OpenTrades) (t : ℕ) : OpenTrades :=
  m.eraseP (fun p => p.1 == t)

/-- The reconciliation loop over the already-computed closed-ticket list
(lines 948–1040): each ticket is popped from the map *first*
(line 949) and only then processed.  Returns the final map and the
processing trace; each trace entry pairs the ticket with a snapshot of
the map at the moment its closure processing starts. -/
def processClosed : List ℕ → OpenTrades → OpenTrades × List (ℕ × OpenTrades)
  | [], m => (m, [])
  | t :: ts, m =>
    let m1 := eraseTicket m t
    let rest := processClosed ts m1
    (rest.1, (t, m1) :: rest.2)

/-- The method `_check_closed_positions` (lines 938–949 drive the control flow):
an empty Open Trade Record returns immediately (line 938–939, the
broker is not contacted); otherwise the broker's open tickets are
fetched and every tracked ticket absent from them
(`closed_tickets`, line 946) is popped and processed. -/
def checkClosedPositions (m : OpenTrades) (brokerTickets : List ℕ) :
    OpenTrades × List (ℕ × OpenTrades) :=
  if m.isEmpty then (m, [])
  else processClosed ((ticketsOf m).filter (fun t => decide (t ∉ brokerTickets))) m

/-! ## Engine: per-closure details (engine.py lines 953–1028) -/

/-- A tick as returned by `data_feed.get_tick`; the source reads
`tick.get('bid', 0.0)` / `tick.get('ask', 0.0)`, so the keys may be
absent. -/
structure Tick where
  bid : Option ℚ
  ask : Option ℚ
deriving DecidableEq, Repr

/-- The history-lookup payload (`/history/deal`), read with
`.get(key, 0.0)` at lines 978–981. -/
structure PositionData where
  price : Option ℚ
  profit : Option ℚ
  commission : Option ℚ
  swap : Option ℚ
deriving DecidableEq, Repr

/-- The four figures passed to `TradeService.close_trade`
(lines 972–999). -/
structure CloseFigures where
  exit_price : ℚ
  profit : ℚ
  commission : ℚ
  swap : ℚ
deriving DecidableEq, Repr

/-- Computation of the closure figures (lines 972–991): when the history
lookup produced data, its fields (defaulting to 0.0); otherwise all
figures stay 0.0 except the exit price, estimated from the latest tick —
bid for a BUY (long) trade, ask for a SELL — and left 0.0 when the tick
fetch itself fails. -/
def closeFigures (dir : Direction) (histData : Option PositionData)
    (tickFetch : Option Tick) : CloseFigures :=
  match histData with
  | some pd =>
    { exit_price := pd.price.getD 0, profit := pd.profit.getD 0,
      commission := pd.commission.getD 0, swap := pd.swap.getD 0 }
  | none =>
    let exit_price := match tickFetch with
      | none => 0
      | some tick => match dir with
        | Direction.BUY => tick.bid.getD 0
        | Direction.SELL => tick.ask.getD 0
    { exit_price := exit_price, profit := 0, commission := 0, swap := 0 }

/-- The payload handed to `brain.process_trade_result` on closure
(lines 1016–1028): the fields the verification tracks. -/
structure BrainTradeResult where
  entry_price : ℚ
  exit_price : ℚ
  profit : ℚ
  won : Bool
deriving DecidableEq, Repr

/-- Building the analytics notification (lines 1016–1028):
`net_profit = profit - commission - swap`, `won = net_profit > 0`. -/
def brainNotification (entry_price : ℚ) (fig : CloseFigures) : BrainTradeResult :=
  let net_profit := fig.profit - fig.commission - fig.swap
  { entry_price := entry_price, exit_price := fig.exit_price,
    profit := net_profit, won := decide (0 < net_profit) }

/-! # Theorems -/

/-- C5 counterexample: the detection cases do NOT hold for every fetched
series.  A series with a single candle fails the `len(candles_tf) >= 2`
guard (engine.py line 567), so the detection yields new=false and
records nothing even on first observation of the key (refuting the
bootstrap clause), and yields new=false even when the latest fetched
timestamp (5) strictly exceeds the stored cursor (3) (refuting the
strictly-later clause). -/
theorem single_candle_series_not_new_cex :
    detectNewCandle none (CandleFetch.series [5]) = (false, none) ∧
    detectNewCandle (some 3) (CandleFetch.series [5]) = (false, some 3) ∧
    (3 : ℕ) < 5 := by decide

/-- C5 amended: candle-change detection cases, for a fetched series of
at least two candles (the source's `len(candles_tf) >= 2` guard; a
shorter series or a failed fetch yields new=false and records nothing).
With such a series whose latest timestamp is `latest`: a first
observation (no stored cursor) yields new=true and records the latest
timestamp; a latest timestamp strictly above the stored cursor yields
new=true; a latest timestamp equal to or below the stored cursor yields
new=false. -/
theorem candle_change_detection_cases (p latest : ℕ) (times : List ℕ)
    (h2 : 2 ≤ times.length) (hlast : times.getLast? = some latest) :
    detectNewCandle none (CandleFetch.series times) = (true, some latest) ∧
    (p < latest →
      (detectNewCandle (some p) (CandleFetch.series times)).1 = true) ∧
    (latest ≤ p →
      (detectNewCandle (some p) (CandleFetch.series times)).1 = false) := by
  refine ⟨?_, ?_, ?_⟩ <;>
    simp only [detectNewCandle, if_pos h2, hlast]
  · intro h
    simp [h]
  · intro h
    simp [Nat.not_lt.mpr h]

/-- Witness for C5 at a concrete series. -/
theorem candle_change_detection_cases_witness :
    detectNewCandle none (CandleFetch.series [0, 5]) = (true, some 5) ∧
    (detectNewCandle (some 3) (CandleFetch.series [0, 5])).1 = true ∧
    (detectNewCandle (some 7) (CandleFetch.series [0, 5])).1 = false :=
  ⟨(candle_change_detection_cases 3 5 [0, 5] (by decide) (by decide)).1,
   (candle_change_detection_cases 3 5 [0, 5] (by decide) (by decide)).2.1 (by decide),
   (candle_change_detection_cases 7 5 [0, 5] (by decide) (by decide)).2.2 (by decide)⟩

/-- C3 counterexample: the cursor is NOT monotonically non-decreasing.
With a stored cursor of 10, a fetched series whose latest timestamp is 5
rewrites the cursor to 5 (engine.py line 578 assigns unconditionally),
a strict decrease. -/
theorem cursor_can_decrease_cex :
    (detectNewCandle (some 10) (CandleFetch.series [1, 5])).2 = some 5 ∧
    (5 : ℕ) < 10 := by decide

/-- C3 amended: the detection step always rewrites the cursor to the
latest fetched timestamp (leaving it unchanged on a failed or too-short
fetch), so the cursor is non-decreasing provided every successfully
fetched series has a latest timestamp no earlier than the stored
cursor. -/
theorem cursor_monotone_without_regression (p : ℕ) (fetch : CandleFetch)
    (hreg : ∀ times latest, fetch = CandleFetch.series times →
      2 ≤ times.length → times.getLast? = some latest → p ≤ latest) :
    ∀ c, (detectNewCandle (some p) fetch).2 = some c → p ≤ c := by
  intro c hc
  cases fetch with
  | failure =>
    simp [detectNewCandle] at hc
    omega
  | series times =>
    by_cases h2 : 2 ≤ times.length
    · cases hl : times.getLast? with
      | none =>
        simp [detectNewCandle, if_pos h2, hl] at hc
        omega
      | some latest =>
        simp [detectNewCandle, if_pos h2, hl] at hc
        exact hc ▸ hreg times latest rfl h2 hl
    · simp [detectNewCandle, if_neg h2] at hc
      omega

/-- Witness for C3's amended theorem at a concrete non-regressing
fetch. -/
theorem cursor_monotone_without_regression_witness : (10 : ℕ) ≤ 12 :=
  cursor_monotone_without_regression 10 (CandleFetch.series [11, 12])
    (by
      intro times latest heq h2 hl
      cases heq
      simp at hl
      omega)
    12 (by decide)

/-- C2 counterexample: a successful submission (ticket 777) whose
database persistence raises leaves `_open_trades` unchanged — the
ticket is NOT recorded, because the insertion sits inside the same
`try` block after `create_trade`/`commit` (engine.py lines 776–815). -/
theorem db_failure_drops_tracking_cex :
    recordTrade [] "EURUSD_D" "EURUSD" Direction.BUY 777
      (DbPersist.error "db down") = [] ∧
    (recordTrade [] "EURUSD_D" "EURUSD" Direction.BUY 777
      (DbPersist.error "db down")).lookup 777 = none := by
  exact ⟨rfl, rfl⟩

/-- C2 amended: the ticket is recorded in `_open_trades` exactly when the
database persistence succeeds (and the ticket is truthy); on a
persistence error the exception is caught and logged and the record map
is left unchanged — the placed live order is not rolled back, but its
in-memory tracking is lost. -/
theorem open_trade_recorded_iff_db_ok (m : OpenTrades)
    (strat_key symbol : String) (dir : Direction) (ticket : ℕ)
    (db : DbPersist) :
    (∀ tid, db = DbPersist.ok tid → ticket ≠ 0 →
      (recordTrade m strat_key symbol dir ticket db).lookup ticket =
        some { trade_id := tid, strategy_code := strategyCodeOf strat_key,
               symbol := symbol, direction := dir }) ∧
    (∀ msg, db = DbPersist.error msg →
      recordTrade m strat_key symbol dir ticket db = m) := by
  constructor
  · intro tid hdb ht
    subst hdb
    simp [recordTrade, ht, List.lookup]
  · intro msg hdb
    subst hdb
    rfl

/-- Witness for C2's amended theorem at concrete inputs. -/
theorem open_trade_recorded_iff_db_ok_witness :
    (recordTrade [] "EURUSD_D" "EURUSD" Direction.BUY 42
      (DbPersist.ok 7)).lookup 42 =
      some { trade_id := 7, strategy_code := strategyCodeOf "EURUSD_D",
             symbol := "EURUSD", direction := Direction.BUY } ∧
    recordTrade [] "EURUSD_D" "EURUSD" Direction.BUY 42
      (DbPersist.error "deadlock") = [] :=
  ⟨(open_trade_recorded_iff_db_ok [] "EURUSD_D" "EURUSD" Direction.BUY 42
      (DbPersist.ok 7)).1 7 rfl (by decide),
   (open_trade_recorded_iff_db_ok [] "EURUSD_D" "EURUSD" Direction.BUY 42
      (DbPersist.error "deadlock")).2 "deadlock" rfl⟩

/-- C9: when the history lookup yields no position data, the exit price
is estimated from the latest tick — its bid for a BUY (long) trade, its
ask for a SELL (short) one; and the analytics notification carries
net profit = profit − commission − swap with a win flag true exactly
when that net profit is strictly positive. -/
theorem closure_exit_price_and_net_profit (dir : Direction) (tick : Tick)
    (entry_price : ℚ) (fig : CloseFigures) :
    (closeFigures dir none (some tick)).exit_price =
      (if dir = Direction.BUY then tick.bid.getD 0 else tick.ask.getD 0) ∧
    (brainNotification entry_price fig).profit =
      fig.profit - fig.commission - fig.swap ∧
    ((brainNotification entry_price fig).won = true ↔
      0 < fig.profit - fig.commission - fig.swap) := by
  refine ⟨?_, rfl, ?_⟩
  · cases dir <;> simp [closeFigures]
  · simp [brainNotification]

/-- C10: the public boundary of `StrategyD.generate_signal` swallows
every internal error: a body that raises surfaces as `None`
(indistinguishable from "no signal"), and a body that returns normally
is passed through unchanged. -/
theorem generate_signal_total_boundary (cfg : DConfig) (df : DataFrame)
    (indRes : Except String LatestIndicators) :
    (∀ e, generate_signal_checked cfg df indRes = Except.error e →
      generate_signal_public cfg df indRes = none) ∧
    (∀ r, generate_signal_checked cfg df indRes = Except.ok r →
      generate_signal_public cfg df indRes = r) := by
  constructor
  · intro e he
    simp [generate_signal_public, he]
  · intro r hr
    simp [generate_signal_public, hr]

/-- Witness for C10: a 30-row frame missing its close column makes the
body raise a KeyError, and the public boundary returns `None`. -/
theorem generate_signal_total_boundary_witness :
    generate_signal_public defaultDConfig
      { nrows := 30, cols := [("high", []), ("low", []), ("open", [])] }
      (Except.ok { upper := some 1, middle := some 1, lower := some 1,
                   rsiv := some 1, atrv := some 1 }) = none :=
  (generate_signal_total_boundary defaultDConfig
      { nrows := 30, cols := [("high", []), ("low", []), ("open", [])] }
      (Except.ok { upper := some 1, middle := some 1, lower := some 1,
                   rsiv := some 1, atrv := some 1 })).1
    "KeyError: close" rfl

/-- C1: whenever the pipeline calls `open_position`, the stop-loss and
take-profit it passes are both strictly positive; and a signal whose
stop-loss or take-profit is missing/non-positive, in a cycle with no
ATR for the symbol, is discarded (`skipped_no_sl_tp`) — the trace holds
no risk-gate call and no order submission. -/
theorem sl_tp_enforced_before_submission (strat_key : String)
    (cfg : SymbolConfig) (atrOpt : Option ℚ) (sig : Signal)
    (risk : RiskCheckResult) :
    (∀ sym dir lots sl tp c,
      Action.openPosition sym dir lots sl tp c ∈
        processSignal strat_key cfg atrOpt sig risk → 0 < sl ∧ 0 < tp) ∧
    ((priceInvalid sig.stop_loss || priceInvalid sig.take_profit) = true →
      atrOpt = none →
      processSignal strat_key cfg atrOpt sig risk =
        [Action.discard "skipped_no_sl_tp"]) := by
  constructor
  · intro sym dir lots sl tp c hmem
    cases he : enforceSlTp cfg atrOpt sig with
    | none => simp [processSignal, he] at hmem
    | some pr =>
      obtain ⟨sl', tp'⟩ := pr
      by_cases hv : sl' ≤ 0 ∨ tp' ≤ 0
      · simp [processSignal, he, hv] at hmem
      · cases happ : risk.approved with
        | false => simp [processSignal, he, hv, happ] at hmem
        | true =>
          simp [processSignal, he, hv, happ] at hmem
          push_neg at hv
          obtain ⟨-, -, -, hsl, htp, -⟩ := hmem
          subst hsl
          subst htp
          exact hv
  · intro hinv hatr
    have he : enforceSlTp cfg atrOpt sig = none := by
      simp [enforceSlTp, hinv, hatr]
    simp [processSignal, he]

/-- Witness for C1: a fully-priced approved signal reaches submission
with positive SL/TP, and an unpriced signal with no ATR is discarded. -/
theorem sl_tp_enforced_before_submission_witness :
    ((0 : ℚ) < 1 ∧ (0 : ℚ) < 2) ∧
    processSignal "EURUSD_D" { lot_size := 1/50, sl_atr_mult := 3/2, tp_atr_mult := 2 }
      none { symbol := "EURUSD", direction := Direction.BUY, entry_price := 5,
             stop_loss := none, take_profit := none }
      { approved := true, reason := "ok", position_size := 1/50, risk_score := 0 } =
      [Action.discard "skipped_no_sl_tp"] :=
  ⟨(sl_tp_enforced_before_submission "EURUSD_D"
      { lot_size := 1/50, sl_atr_mult := 3/2, tp_atr_mult := 2 } (some 1)
      { symbol := "EURUSD", direction := Direction.BUY, entry_price := 5,
        stop_loss := some 1, take_profit := some 2 }
      { approved := true, reason := "ok", position_size := 1/50, risk_score := 0 }).1
    "EURUSD" Direction.BUY (1/50) 1 2 (("JSR_" ++ "EURUSD_D").take 31)
    (by norm_num [processSignal, enforceSlTp, priceInvalid]),
   (sl_tp_enforced_before_submission "EURUSD_D"
      { lot_size := 1/50, sl_atr_mult := 3/2, tp_atr_mult := 2 } none
      { symbol := "EURUSD", direction := Direction.BUY, entry_price := 5,
        stop_loss := none, take_profit := none }
      { approved := true, reason := "ok", position_size := 1/50, risk_score := 0 }).2
    (by decide) rfl⟩

/-- C4: when the risk gate is consulted and answers approved=false, no
`open_position` call appears in the trace and a TRADE_REJECTED event
carrying the gate's reason is published. -/
theorem risk_rejection_blocks_order (strat_key : String) (cfg : SymbolConfig)
    (atrOpt : Option ℚ) (sig : Signal) (risk : RiskCheckResult)
    (happr : risk.approved = false)
    (hgate : ∃ sym dir d, Action.riskCheck sym dir d ∈
      processSignal strat_key cfg atrOpt sig risk) :
    (∀ sym dir lots sl tp c,
      Action.openPosition sym dir lots sl tp c ∉
        processSignal strat_key cfg atrOpt sig risk) ∧
    Action.publish (Event.TRADE_REJECTED strat_key sig.symbol risk.reason) ∈
      processSignal strat_key cfg atrOpt sig risk := by
  obtain ⟨gsym, gdir, gd, hg⟩ := hgate
  cases he : enforceSlTp cfg atrOpt sig with
  | none => simp [processSignal, he] at hg
  | some pr =>
    obtain ⟨sl, tp⟩ := pr
    by_cases hv : sl ≤ 0 ∨ tp ≤ 0
    · simp [processSignal, he, hv] at hg
    · constructor
      · intro sym dir lots sl' tp' c
        simp [processSignal, he, hv, happr]
      · simp [processSignal, he, hv, happr]

/-- Witness for C4: a concrete rejected check yields the rejection event
and no submission. -/
theorem risk_rejection_blocks_order_witness :
    Action.openPosition "EURUSD" Direction.BUY (1/50) 1 2
        (("JSR_" ++ "EURUSD_D").take 31) ∉
      processSignal "EURUSD_D"
        { lot_size := 1/50, sl_atr_mult := 3/2, tp_atr_mult := 2 } (some 1)
        { symbol := "EURUSD", direction := Direction.BUY, entry_price := 5,
          stop_loss := some 1, take_profit := some 2 }
        { approved := false, reason := "kill switch active",
          position_size := 0, risk_score := 1 } ∧
    Action.publish (Event.TRADE_REJECTED "EURUSD_D" "EURUSD" "kill switch active") ∈
      processSignal "EURUSD_D"
        { lot_size := 1/50, sl_atr_mult := 3/2, tp_atr_mult := 2 } (some 1)
        { symbol := "EURUSD", direction := Direction.BUY, entry_price := 5,
          stop_loss := some 1, take_profit := some 2 }
        { approved := false, reason := "kill switch active",
          position_size := 0, risk_score := 1 } :=
  ⟨(risk_rejection_blocks_order "EURUSD_D"
      { lot_size := 1/50, sl_atr_mult := 3/2, tp_atr_mult := 2 } (some 1)
      { symbol := "EURUSD", direction := Direction.BUY, entry_price := 5,
        stop_loss := some 1, take_profit := some 2 }
      { approved := false, reason := "kill switch active",
        position_size := 0, risk_score := 1 } rfl
      ⟨"EURUSD", Direction.BUY, |(5 : ℚ) - 1|,
        by norm_num [processSignal, enforceSlTp, priceInvalid]⟩).1
    "EURUSD" Direction.BUY (1/50) 1 2 (("JSR_" ++ "EURUSD_D").take 31),
   (risk_rejection_blocks_order "EURUSD_D"
      { lot_size := 1/50, sl_atr_mult := 3/2, tp_atr_mult := 2 } (some 1)
      { symbol := "EURUSD", direction := Direction.BUY, entry_price := 5,
        stop_loss := some 1, take_profit := some 2 }
      { approved := false, reason := "kill switch active",
        position_size := 0, risk_score := 1 } rfl
      ⟨"EURUSD", Direction.BUY, |(5 : ℚ) - 1|,
        by norm_num [processSignal, enforceSlTp, priceInvalid]⟩).2⟩

/-- C7: StrategyD's conflict policy.  When triggers exist for both
directions simultaneously the evaluator returns `None`; and a signal is
produced only when exactly one direction has at least one trigger. -/
theorem strategy_d_conflict_returns_none (cfg : DConfig)
    (candles : List Candle) (ind : LatestIndicators) (latest : Candle)
    (ub mb lb rv av : ℚ) (hlast : candles.getLast? = some latest)
    (hu : ind.upper = some ub) (hm : ind.middle = some mb)
    (hl : ind.lower = some lb) (hr : ind.rsiv = some rv)
    (ha : ind.atrv = some av) :
    (buyTriggers cfg candles latest lb rv ≠ [] →
     sellTriggers cfg candles latest ub rv ≠ [] →
     generate_signal cfg candles ind = none) ∧
    (∀ s, generate_signal cfg candles ind = some s →
      (buyTriggers cfg candles latest lb rv ≠ [] ∧
        sellTriggers cfg candles latest ub rv = []) ∨
      (sellTriggers cfg candles latest ub rv ≠ [] ∧
        buyTriggers cfg candles latest lb rv = [])) := by
  by_cases hlen : candles.length < minData cfg
  · constructor
    · intro _ _
      simp [generate_signal, hlen]
    · intro s hs
      simp [generate_signal, hlen] at hs
  · have hgen : generate_signal cfg candles ind =
        signalCore cfg candles latest ub mb lb rv av := by
      simp [generate_signal, hlen, hlast, hu, hm, hl, hr, ha]
    constructor
    · intro hbuy hsell
      rw [hgen]
      simp [signalCore, hbuy, hsell]
    · intro s hs
      rw [hgen] at hs
      by_cases hc1 : buyTriggers cfg candles latest lb rv ≠ [] ∧
          sellTriggers cfg candles latest ub rv = []
      · exact Or.inl hc1
      · by_cases hc2 : sellTriggers cfg candles latest ub rv ≠ [] ∧
            buyTriggers cfg candles latest lb rv = []
        · exact Or.inr hc2
        · simp [signalCore, hc1, hc2] at hs

/-- A degenerate all-ones bar used by the concrete witnesses: its body
and range are zero, so no momentum burst can fire on it. -/
def flatCandle : Candle :=
  { open_price := 1, high := 1, low := 1, close := 1 }

/-- Witness for C7: 25 flat bars with the close below the lower band
(BUY trigger) and RSI 80 above the overbought threshold (SELL trigger)
— a conflict, so no signal. -/
theorem strategy_d_conflict_returns_none_witness :
    generate_signal defaultDConfig (List.replicate 25 flatCandle)
      { upper := some 3, middle := some (5/2), lower := some 2,
        rsiv := some 80, atrv := some (1/2) } = none :=
  (strategy_d_conflict_returns_none defaultDConfig
      (List.replicate 25 flatCandle)
      { upper := some 3, middle := some (5/2), lower := some 2,
        rsiv := some 80, atrv := some (1/2) }
      flatCandle 3 (5/2) 2 80 (1/2) rfl rfl rfl rfl rfl rfl).1
    (by norm_num [buyTriggers, momentumFlags, defaultDConfig, flatCandle])
    (by norm_num [sellTriggers, momentumFlags, defaultDConfig, flatCandle])

/-- C8: the spec's 25-bar scenario for StrategyD under the constructor
defaults (BB period 20, RSI period 14, oversold 30, overbought 70):
latest close below the lower band, no SELL trigger, all indicator
values defined, RSI = 45 — the evaluator returns a BUY signal with
confidence 1/10, SL = close − 1.0×ATR and TP = close + 1.5×ATR,
provided both stops are strictly positive. -/
theorem strategy_d_neutral_rsi_buy_scenario (candles : List Candle)
    (ind : LatestIndicators) (latest : Candle) (ub mb lb av : ℚ)
    (hlen : candles.length = 25) (hlast : candles.getLast? = some latest)
    (hu : ind.upper = some ub) (hm : ind.middle = some mb)
    (hl : ind.lower = some lb) (hr : ind.rsiv = some 45)
    (ha : ind.atrv = some av) (hbb : latest.close < lb)
    (hnosell : sellTriggers defaultDConfig candles latest ub 45 = [])
    (hsl : 0 < latest.close - av * 1)
    (htp : 0 < latest.close + av * (3 / 2)) :
    generate_signal defaultDConfig candles ind =
      some { direction := Direction.BUY
             confidence := 1 / 10
             sl_price := latest.close - av * 1
             tp_price := latest.close + av * (3 / 2)
             reason := buyTriggers defaultDConfig candles latest lb 45
             strategy_code := "D" } := by
  have hlen' : ¬ candles.length < minData defaultDConfig := by
    rw [hlen]
    decide
  have hbuy : buyTriggers defaultDConfig candles latest lb 45 ≠ [] := by
    simp [buyTriggers, hbb]
  have hgen : generate_signal defaultDConfig candles ind =
      signalCore defaultDConfig candles latest ub mb lb 45 av := by
    simp [generate_signal, hlen', hlast, hu, hm, hl, hr, ha]
  rw [hgen]
  simp only [signalCore, hnosell, hbuy, ne_eq, not_false_iff, and_self, if_true,
    not_true, and_false, if_false]
  simp only [mkSignal, if_pos rfl]
  rw [if_neg]
  · norm_num
  · push_neg
    exact ⟨hsl, htp⟩

/-- Witness for C8 at a concrete 25-bar window: close 1 below the lower
band 2, RSI 45, ATR 1/2 — a BUY at confidence 1/10 with SL 1/2 and
TP 7/4. -/
theorem strategy_d_neutral_rsi_buy_scenario_witness :
    generate_signal defaultDConfig (List.replicate 25 flatCandle)
      { upper := some 3, middle := some (5/2), lower := some 2,
        rsiv := some 45, atrv := some (1/2) } =
      some { direction := Direction.BUY
             confidence := 1 / 10
             sl_price := flatCandle.close - (1/2) * 1
             tp_price := flatCandle.close + (1/2) * (3 / 2)
             reason := buyTriggers defaultDConfig
               (List.replicate 25 flatCandle) flatCandle 2 45
             strategy_code := "D" } :=
  strategy_d_neutral_rsi_buy_scenario (List.replicate 25 flatCandle)
    { upper := some 3, middle := some (5/2), lower := some 2,
      rsiv := some 45, atrv := some (1/2) }
    flatCandle 3 (5/2) 2 (1/2) rfl rfl rfl rfl rfl rfl rfl
    (by norm_num [flatCandle])
    (by norm_num [sellTriggers, momentumFlags, defaultDConfig, flatCandle])
    (by norm_num [flatCandle]) (by norm_num [flatCandle])

/-! ## Reconciliation lemmas (towards C6) -/

theorem tickets_erase_sublist (m : OpenTrades) (t : ℕ) :
    List.Sublist (ticketsOf (eraseTicket m t)) (ticketsOf m) :=
  List.Sublist.map Prod.fst (List.eraseP_sublist m)

theorem tickets_erase_nodup (m : OpenTrades) (t : ℕ)
    (h : (ticketsOf m).Nodup) : (ticketsOf (eraseTicket m t)).Nodup :=
  h.sublist (tickets_erase_sublist m t)

/-- With no duplicate tickets, popping a ticket removes it entirely. -/
theorem not_mem_tickets_erase_self (m : OpenTrades) (t : ℕ)
    (h : (ticketsOf m).Nodup) : t ∉ ticketsOf (eraseTicket m t) := by
  induction m with
  | nil => simp [eraseTicket, ticketsOf]
  | cons p m ih =>
    have h' : p.1 ∉ ticketsOf m ∧ (ticketsOf m).Nodup := by
      simpa [ticketsOf] using h
    by_cases hp : p.1 = t
    · have he : eraseTicket (p :: m) t = m := by
        simp [eraseTicket, List.eraseP_cons, hp]
      rw [he]
      exact hp ▸ h'.1
    · have he : eraseTicket (p :: m) t = p :: eraseTicket m t := by
        simp [eraseTicket, List.eraseP_cons, hp]
      rw [he]
      simp only [ticketsOf, List.map_cons, List.mem_cons]
      rintro (h1 | h2)
      · exact hp h1.symm
      · exact ih h'.2 h2

/-- The processed tickets are exactly the closed-ticket list, in order. -/
theorem processClosed_trace_tickets (ts : List ℕ) (m : OpenTrades) :
    (processClosed ts m).2.map Prod.fst = ts := by
  induction ts generalizing m with
  | nil => rfl
  | cons t ts ih => simp [processClosed, ih]

/-- A ticket surviving the processing loop was in the map and was not in
the closed-ticket list. -/
theorem mem_processClosed_final (ts : List ℕ) (m : OpenTrades)
    (h : (ticketsOf m).Nodup) :
    ∀ u, u ∈ ticketsOf (processClosed ts m).1 → u ∈ ticketsOf m ∧ u ∉ ts := by
  induction ts generalizing m with
  | nil =>
    intro u hu
    simp [processClosed] at hu
    exact ⟨hu, List.not_mem_nil u⟩
  | cons t ts ih =>
    intro u hu
    have hu' : u ∈ ticketsOf (processClosed ts (eraseTicket m t)).1 := by
      simpa [processClosed] using hu
    obtain ⟨hm, hts⟩ := ih (eraseTicket m t) (tickets_erase_nodup m t h) u hu'
    refine ⟨(tickets_erase_sublist m t).subset hm, ?_⟩
    simp only [List.mem_cons]
    rintro (rfl | hin)
    · exact not_mem_tickets_erase_self m u h hm
    · exact hts hin

/-- Every snapshot taken at the start of a ticket's closure processing
no longer contains that ticket. -/
theorem processClosed_snapshots (ts : List ℕ) (m : OpenTrades)
    (h : (ticketsOf m).Nodup) :
    ∀ t snap, (t, snap) ∈ (processClosed ts m).2 → t ∉ ticketsOf snap := by
  induction ts generalizing m with
  | nil => simp [processClosed]
  | cons a ts ih =>
    intro t snap hmem
    have hmem' : (t, snap) = (a, eraseTicket m a) ∨
        (t, snap) ∈ (processClosed ts (eraseTicket m a)).2 := by
      simpa [processClosed] using hmem
    rcases hmem' with heq | hmem'
    · injection heq with h1 h2
      subst h1
      subst h2
      exact not_mem_tickets_erase_self m t h
    · exact ih (eraseTicket m a) (tickets_erase_nodup m a h) t snap hmem'

/-- A reconciliation pass whose closed-ticket list is empty returns the
map unchanged and processes nothing. -/
theorem checkClosedPositions_noop (m : OpenTrades) (broker : List ℕ)
    (h : (ticketsOf m).filter (fun t => decide (t ∉ broker)) = []) :
    checkClosedPositions m broker = (m, []) := by
  unfold checkClosedPositions
  by_cases he : m.isEmpty = true
  · rw [if_pos he]
  · rw [if_neg he, h]
    rfl

/-- C6: closure reconciliation.  Every ticket's closure is processed on a
map snapshot from which the ticket was already removed; a tracked ticket
absent from the broker's open set is processed exactly once and removed
from the Open Trade Record; and an immediate second reconciliation
against the same broker state processes nothing. -/
theorem closure_reconciliation_exactly_once (m : OpenTrades)
    (broker : List ℕ) (hnd : (ticketsOf m).Nodup) :
    (∀ t snap, (t, snap) ∈ (checkClosedPositions m broker).2 →
      t ∉ ticketsOf snap) ∧
    (∀ t, t ∈ ticketsOf m → t ∉ broker →
      ((checkClosedPositions m broker).2.map Prod.fst).count t = 1 ∧
      t ∉ ticketsOf (checkClosedPositions m broker).1) ∧
    checkClosedPositions (checkClosedPositions m broker).1 broker =
      ((checkClosedPositions m broker).1, []) := by
  by_cases hm : m.isEmpty
  · have hm' : m = [] := by simpa using hm
    subst hm'
    refine ⟨?_, ?_, ?_⟩ <;> simp [checkClosedPositions, ticketsOf]
  · have hrec : checkClosedPositions m broker =
        processClosed ((ticketsOf m).filter (fun t => decide (t ∉ broker))) m := by
      simp [checkClosedPositions, hm]
    have hnodup_ts : ((ticketsOf m).filter (fun t => decide (t ∉ broker))).Nodup :=
      hnd.filter _
    refine ⟨?_, ?_, ?_⟩
    · rw [hrec]
      exact processClosed_snapshots _ m hnd
    · intro t htm htb
      have htts : t ∈ (ticketsOf m).filter (fun t => decide (t ∉ broker)) :=
        List.mem_filter.mpr ⟨htm, by simpa using htb⟩
      constructor
      · rw [hrec, processClosed_trace_tickets]
        exact List.count_eq_one_of_mem hnodup_ts htts
      · rw [hrec]
        intro hfin
        exact (mem_processClosed_final _ m hnd t hfin).2 htts
    · rw [hrec]
      have hsub : ∀ u ∈ ticketsOf
          (processClosed ((ticketsOf m).filter (fun t => decide (t ∉ broker))) m).1,
          u ∈ broker := by
        intro u hu
        obtain ⟨hum, huts⟩ := mem_processClosed_final _ m hnd u hu
        by_contra hub
        exact huts (List.mem_filter.mpr ⟨hum, by simpa using hub⟩)
      have hfilter : (ticketsOf
          (processClosed ((ticketsOf m).filter (fun t => decide (t ∉ broker))) m).1).filter
            (fun t => decide (t ∉ broker)) = [] := by
        rw [List.filter_eq_nil_iff]
        intro a ha
        simpa using hsub a ha
      exact checkClosedPositions_noop _ broker hfilter

/-- Witness for C6 on a concrete two-trade record where the broker still
reports only ticket 2: ticket 1 is processed exactly once and leaves the
record. -/
theorem closure_reconciliation_exactly_once_witness :
    ((checkClosedPositions
        [(1, { trade_id := 10, strategy_code := "D", symbol := "EURUSD",
               direction := Direction.BUY }),
         (2, { trade_id := 11, strategy_code := "A", symbol := "GBPUSD",
               direction := Direction.SELL })] [2]).2.map Prod.fst).count 1 = 1 ∧
    1 ∉ ticketsOf (checkClosedPositions
        [(1, { trade_id := 10, strategy_code := "D", symbol := "EURUSD",
               direction := Direction.BUY }),
         (2, { trade_id := 11, strategy_code := "A", symbol := "GBPUSD",
               direction := Direction.SELL })] [2]).1 :=
  (closure_reconciliation_exactly_once
      [(1, { trade_id := 10, strategy_code := "D", symbol := "EURUSD",
             direction := Direction.BUY }),
       (2, { trade_id := 11, strategy_code := "A", symbol := "GBPUSD",
             direction := Direction.SELL })] [2] (by decide)).2.1
    1 (by decide) (by decide)

end Hydra
